import Mathlib

/-!
Verification of the minimal interactive shell (`part_000`).

Shallow embedding of the C shell in `src/unnamed/part_000`:

```c
int execute(char *command)
{
    pid_t pid = fork();
    if (pid == 0)
    {
        // Child process
        exec(command, command, NULL);
        // If exec returns, it failed
        perror("exec failed");
        exit(1);
    }
    else if (pid > 0)
    {
        // Parent process
        int status;
        wait(pid);
    }
    else
    {
        perror("fork failed");
    }
    return 0;
}

int main()
{
    // Disable buffer in STDOUT
    setvbuf(stdout, NULL, _IONBF, 0);
    printf("Running Shell...\n");
    while (1)
    {
        char command[NUM];           // NUM = 1024
        printf("~ # ");
        char *cmd = fgets(command, NUM, stdin);
        command[strlen(cmd) - 1] = '\0';
        printf("\n Running command: %s\n", command);
        execute(command);
    }
}
```

Bytes are `Nat`; the input stream is a `List Nat`; the command buffer is a
`List Nat` of length `NUM` whose contents persist between iterations (the
array occupies the same stack slot on every pass, so bytes left by a previous
line are the stale content the specification worries about).  The observable
behaviour of one run is a list of events (`Ev`): writes to stdout/stderr, the
image-replacement call with its literal arguments, the wait call with the
literal argument the source passes, child termination, and a marker for
undefined behaviour (`Ev.undef`), which the source reaches when it calls
`strlen` on the NULL that `fgets` returns at end-of-stream (line 43), or when
it writes `command[-1]` after `strlen` returned 0.

Nondeterminism of the operating system is an oracle: each iteration is given
an `IterWorld` saying whether `fork` failed, and otherwise the child's pid and
whether the `exec` call succeeded (child runs to completion with some exit
status) or returned (failure).  Because the parent blocks in `wait` until the
child terminates, the child's events are serialized into the parent's trace
before `execute` returns.
-/

namespace Shell

/-- Buffer capacity: `#define NUM 1024` in the source. -/
def NUM : Nat := 1024

/-- Bytes of a string literal (ASCII text the shell prints). -/
def strBytes (s : String) : List Nat :=
  s.toList.map Char.toNat

/-- The prompt literal `"~ # "` printed at the top of each iteration. -/
def promptStr : String := "~ # "

/-- The startup banner `"Running Shell...\n"` printed once before the loop. -/
def bannerStr : String := "Running Shell...\n"

/-- The text printed by `printf("\n Running command: %s\n", command)` before
the command bytes. -/
def echoPreStr : String := "\n Running command: "

/-- A single newline, the tail of the echo `printf`. -/
def nlStr : String := "\n"

/-- Message of `perror("exec failed")` (perror appends the errno text, which
is environment data, not program data; we record the program's literal). -/
def execFailMsg : String := "exec failed"

/-- Message of `perror("fork failed")`. -/
def forkFailMsg : String := "fork failed"

/-- A sample resolvable executable path used as concrete input. -/
def trueCmdStr : String := "/bin/true"

/-- Prompt bytes. -/
def promptBytes : List Nat := strBytes promptStr

/-- Echo bytes for a command: `"\n Running command: " ++ cmd ++ "\n"`. -/
def echoBytes (cmd : List Nat) : List Nat :=
  strBytes echoPreStr ++ cmd ++ strBytes nlStr

/-- `fgets(buf, cap+1, stream)` byte acquisition: reads at most `cap` bytes,
stopping after a newline (byte 10), or at end of the stream.  Returns the
bytes read and the remaining stream. -/
def fgetsTake : Nat → List Nat → List Nat × List Nat
  | 0, s => ([], s)
  | _ + 1, [] => ([], [])
  | k + 1, b :: s =>
    if b = 10 then ([b], s)
    else
      let r := fgetsTake k s
      (b :: r.1, r.2)

/-- The bytes read by this iteration's `fgets(command, NUM, stdin)` together
with the rest of the stream (`fgets` reads at most `NUM - 1` bytes). -/
def readBytes (input : List Nat) : List Nat × List Nat :=
  fgetsTake (NUM - 1) input

/-- Effect of `fgets` on the buffer: the bytes read are stored at the front,
a NUL terminator follows them, and the stale bytes beyond position
`bs.length` are untouched. -/
def writeBytes (buf bs : List Nat) : List Nat :=
  bs ++ [0] ++ buf.drop (bs.length + 1)

/-- The C string held in a buffer: the bytes before the first NUL. -/
def cstr (buf : List Nat) : List Nat :=
  buf.takeWhile (fun b => b != 0)

/-- `strlen` of the buffer's C string. -/
def strlen (buf : List Nat) : Nat :=
  (cstr buf).length

/-- The buffer after line 43, `command[strlen(cmd) - 1] = '\0'`, applied to
the buffer `fgets` just filled with `bs`.  (The write is modelled only when
`strlen ≥ 1`; the loop semantics flags `strlen = 0`, i.e. `command[-1]`, as
undefined behaviour before using this.) -/
def afterStrip (buf bs : List Nat) : List Nat :=
  let b1 := writeBytes buf bs
  b1.set (strlen b1 - 1) 0

/-- The command string an iteration echoes and dispatches: the C string of
the buffer after `fgets` wrote this iteration's bytes and line 43 stripped. -/
def iterCommand (buf input : List Nat) : List Nat :=
  cstr (afterStrip buf (readBytes input).1)

/-- The argument the source passes to `wait`.  `wait`'s parameter is a status
pointer (`int *stat_loc`; the repository's own tests call `wait(NULL)` and
`waitpid(pid, &status, 0)`), but line 26 of the source passes the raw `pid`
value, so we record which kind of argument the call received. -/
inductive WaitArg
  | pidValue (p : Nat)
  | statusPtr
  | nullPtr
  deriving DecidableEq

/-- Observable events of a run. -/
inductive Ev
  /-- `setvbuf(stdout, NULL, _IONBF, 0)`: stdout made unbuffered. -/
  | setvbufUnbuffered
  /-- Bytes written to standard output. -/
  | stdout (bs : List Nat)
  /-- Diagnostic written to standard error (via `perror`). -/
  | stderr (msg : String)
  /-- The image-replacement call `exec(path, arg0, NULL)` with its literal
  arguments; `extra` are the arguments after `arg0` and before the
  terminating NULL (the source supplies none). -/
  | execCall (path arg0 : List Nat) (extra : List (List Nat))
  /-- The child invokes `exit(code)`. -/
  | exitCall (code : Nat)
  /-- The parent invokes `wait` with the given literal argument. -/
  | waitCall (arg : WaitArg)
  /-- The child process with the given pid terminates with the given status. -/
  | childExit (pid : Nat) (status : Nat)
  /-- Undefined behaviour reached (`strlen(NULL)` at line 43, or the
  `command[-1]` store when `strlen` returned 0). -/
  | undef
  deriving DecidableEq

/-- What the environment does with the child's `exec` call. -/
inductive ChildBehavior
  /-- The image replacement takes effect; the new program runs to completion
  and the child exits with `exitStatus`. -/
  | execSucceeds (exitStatus : Nat)
  /-- The call returns (the path did not resolve); the child falls through to
  `perror` and `exit(1)`. -/
  | execFails
  deriving DecidableEq

/-- Oracle for one iteration's process-lifecycle outcomes. -/
inductive IterWorld
  /-- `fork()` returned a negative value: no child was created. -/
  | forkFail
  /-- `fork()` succeeded; the child got pid `pid` (positive in the parent)
  and behaves as `child`. -/
  | forkOk (pid : Nat) (child : ChildBehavior)
  deriving DecidableEq

/-- The child branch of `execute` (lines 13–20): events the child context
emits, and whether control in the child context ever returns to `execute`'s
caller (`none`: it never does — the image is replaced, or `exit(1)` runs). -/
def childBranch (cmd : List Nat) (cb : ChildBehavior) : List Ev × Option Int :=
  match cb with
  | .execSucceeds _ => ([.execCall cmd cmd []], none)
  | .execFails => ([.execCall cmd cmd [], .stderr execFailMsg, .exitCall 1], none)

/-- Exit status of the child process: the exec'd program's status, or 1 from
the `exit(1)` after a failed `exec`. -/
def childExitStatus : ChildBehavior → Nat
  | .execSucceeds s => s
  | .execFails => 1

/-- Result of the parent's call to `execute`. -/
structure ExecResult where
  /-- Serialized events: the child's events, then the parent's `wait` call,
  then the child's termination (the parent blocks in `wait` until then). -/
  events : List Ev
  /-- Value `execute` returns to its caller in the parent context. -/
  ret : Option Int
  /-- Content of the parent's local `int status` after `execute`: the value
  some primitive stored there, or `none` if nothing ever wrote it.  The
  source declares `status` (line 24) but passes `pid`, not `&status`, to
  `wait` (line 25), so no call ever writes it. -/
  statusVar : Option Nat
  deriving DecidableEq

/-- `execute(command)` (lines 10–32), seen from the parent context.  On fork
failure: `perror("fork failed")`, no wait, return 0.  On success: the child's
events, the parent's `wait(pid)` call — whose single argument is the raw pid
value, filling `wait`'s status-pointer parameter — and the child's
termination, then return 0.  The local `status` is never assigned. -/
def execute (cmd : List Nat) (w : IterWorld) : ExecResult :=
  match w with
  | .forkFail => ⟨[.stderr forkFailMsg], some 0, none⟩
  | .forkOk pid cb =>
    ⟨(childBranch cmd cb).1
       ++ [.waitCall (.pidValue pid), .childExit pid (childExitStatus cb)],
     some 0, none⟩

/-- Loop state: the command buffer (one stack slot, so its stale contents
survive into the next iteration) and the remaining input stream. -/
structure LoopState where
  buffer : List Nat
  input : List Nat
  deriving DecidableEq

/-- One pass of the `while (1)` body (lines 39–46).  Prints the prompt, calls
`fgets`; if the stream has already ended, `fgets` returns NULL and line 43
computes `strlen(NULL)` — undefined behaviour, recorded as `Ev.undef` with no
successor state.  Likewise if `strlen` of the fresh read is 0 (line 43 then
stores to `command[-1]`).  Otherwise line 43 NULs position `strlen - 1`, the
result is echoed and dispatched to `execute`, and the loop continues. -/
def shellIter (st : LoopState) (w : IterWorld) : List Ev × Option LoopState :=
  match st.input with
  | [] => ([.stdout promptBytes, .undef], none)
  | _ :: _ =>
    if strlen (writeBytes st.buffer (readBytes st.input).1) = 0 then
      ([.stdout promptBytes, .undef], none)
    else
      let cmd := iterCommand st.buffer st.input
      ([.stdout promptBytes, .stdout (echoBytes cmd)] ++ (execute cmd w).events,
       some ⟨afterStrip st.buffer (readBytes st.input).1, (readBytes st.input).2⟩)

/-- The first `n` iterations of the loop (the source's loop is `while (1)`;
`n` is the observation window).  Stops early only at undefined behaviour. -/
def shellRun : Nat → LoopState → (Nat → IterWorld) → List Ev
  | 0, _, _ => []
  | n + 1, st, ws =>
    match shellIter st (ws 0) with
    | (evs, none) => evs
    | (evs, some st') => evs ++ shellRun n st' (fun i => ws (i + 1))

/-- `main` (lines 34–47): make stdout unbuffered, print the banner, run the
loop.  `buf0` is the arbitrary initial content of the uninitialized buffer. -/
def shellMain (buf0 input : List Nat) (ws : Nat → IterWorld) (n : Nat) : List Ev :=
  .setvbufUnbuffered :: .stdout (strBytes bannerStr) :: shellRun n ⟨buf0, input⟩ ws

/-! Helper lemmas about C strings in the buffer. -/

/-- Unfolding `cstr` on a cons cell. -/
theorem cstr_cons (a : Nat) (l : List Nat) :
    cstr (a :: l) = if a = 0 then [] else a :: cstr l := by
  by_cases h : a = 0 <;> simp [cstr, List.takeWhile_cons, h]

/-- The C string of a buffer stops at the first NUL: content appended after
an explicit NUL is invisible. -/
theorem cstr_append_zero (bs rest : List Nat) : cstr (bs ++ 0 :: rest) = cstr bs := by
  induction bs with
  | nil => simp [cstr]
  | cons a t ih => simp [cstr_cons, ih]

/-- Storing a NUL anywhere in a buffer can only shorten its C string: the new
C string is an initial segment of the old one. -/
theorem cstr_set_zero (l : List Nat) (k : Nat) :
    ∃ u, cstr (l.set k 0) ++ u = cstr l := by
  induction l generalizing k with
  | nil => exact ⟨[], rfl⟩
  | cons a t ih =>
    cases k with
    | zero => exact ⟨cstr (a :: t), by simp [cstr_cons]⟩
    | succ k =>
      by_cases h : a = 0
      · exact ⟨[], by simp [h, cstr_cons]⟩
      · obtain ⟨u, hu⟩ := ih k
        exact ⟨u, by simp [cstr_cons, h, hu]⟩

/-- After `fgets` stores `bs` followed by a NUL, the buffer's C string does
not depend on the stale bytes beyond the NUL. -/
theorem cstr_writeBytes (buf bs : List Nat) : cstr (writeBytes buf bs) = cstr bs := by
  have h : writeBytes buf bs = bs ++ 0 :: buf.drop (bs.length + 1) := by
    simp [writeBytes]
  rw [h, cstr_append_zero]

/-- The C string of any buffer is an initial segment of the buffer itself. -/
theorem cstr_extends_to (bs : List Nat) : ∃ u, cstr bs ++ u = bs :=
  ⟨bs.dropWhile (fun b => b != 0),
    List.takeWhile_append_dropWhile (fun b => b != 0) bs⟩

/-- Every pass of the loop body writes the prompt first, whatever the state
and the oracle. -/
theorem shellIter_starts_prompt (st : LoopState) (w : IterWorld) :
    ∃ rest, (shellIter st w).1 = .stdout promptBytes :: rest := by
  obtain ⟨buf, input⟩ := st
  cases input with
  | nil => exact ⟨[.undef], rfl⟩
  | cons b t =>
    by_cases h0 : strlen (writeBytes buf (readBytes (b :: t)).1) = 0
    · exact ⟨[.undef], by simp [shellIter, h0]⟩
    · exact ⟨.stdout (echoBytes (iterCommand buf (b :: t)))
          :: (execute (iterCommand buf (b :: t)) w).events, by simp [shellIter, h0]⟩

/-- Any nonempty observation window of the loop starts with a prompt: the
next prompt still appears after whatever the previous iteration did. -/
theorem shellRun_succ_starts_prompt (m : Nat) (st : LoopState) (ws : Nat → IterWorld) :
    ∃ rest, shellRun (m + 1) st ws = .stdout promptBytes :: rest := by
  obtain ⟨r, hr⟩ := shellIter_starts_prompt st (ws 0)
  match h : shellIter st (ws 0) with
  | (evs, none) =>
    rw [h] at hr
    exact ⟨r, by simp only [shellRun, h]; simpa using hr⟩
  | (evs, some st') =>
    rw [h] at hr
    simp only at hr
    exact ⟨r ++ shellRun m st' (fun i => ws (i + 1)), by simp only [shellRun, h, hr]; rfl⟩

/-! Claim theorems. -/

/-- C1: the claim says that when the stream has already ended, the shell loop
transitions to its terminated state without attempting to strip a terminator.
The code does the opposite: it never checks `fgets`'s return value, so on
end-of-stream `cmd` is NULL and line 43 evaluates `strlen(cmd)` — undefined
behaviour — and the `while (1)` loop has no terminated state at all.  This
theorem evaluates the loop at the failing input (an empty stream): after the
prompt, the run reaches `Ev.undef` instead of any orderly termination. -/
theorem C1_eof_reaches_undefined_behavior :
    shellRun 1 ⟨List.replicate NUM 0, []⟩ (fun _ => .forkFail)
      = [.stdout promptBytes, .undef] := rfl

/-- C2: the claim says the parent blocks on the just-created child's
identifier and retrieves that child's exit status before `spawn` returns.
The code's line 25 calls `wait(pid)` — `wait`'s single parameter is a status
pointer (the repository's own tests call `wait(NULL)` and
`waitpid(pid, &status, 0)`), so the pid does not direct the wait at that
child, and the local `status` declared on line 24 is never assigned.  This
theorem evaluates `execute` at a concrete successful spawn (pid 5, child
exiting with status 7): the recorded wait call carries the raw pid value in
the status-pointer position, and no exit status is ever retrieved into
`status`. -/
theorem C2_wait_gets_pid_and_status_is_never_retrieved :
    (execute (strBytes trueCmdStr) (.forkOk 5 (.execSucceeds 7))).statusVar = none
    ∧ (execute (strBytes trueCmdStr) (.forkOk 5 (.execSucceeds 7))).events
        = [.execCall (strBytes trueCmdStr) (strBytes trueCmdStr) [],
           .waitCall (.pidValue 5), .childExit 5 7] :=
  ⟨rfl, rfl⟩

set_option maxRecDepth 100000 in
/-- C3: the claim says a line that fills the buffer without a terminator is
returned unchanged, and no byte other than a trailing terminator is removed.
The code's line 43 executes `command[strlen(cmd) - 1] = '\0'` without
checking that the last byte is a newline, so it chops the final content byte.
This theorem evaluates the failing input — 1023 bytes of `'a'` (0x61), which
fill the 1024-byte buffer with no terminator: `fgets` reads all 1023 bytes,
yet the command that survives stripping has only 1022 of them. -/
theorem C3_full_buffer_line_loses_last_byte :
    readBytes (List.replicate 1023 97) = (List.replicate 1023 97, [])
    ∧ iterCommand (List.replicate NUM 0) (List.replicate 1023 97)
        = List.replicate 1022 97
    ∧ List.replicate 1022 97 ≠ List.replicate (1023 : Nat) (97 : Nat) := by
  refine ⟨by decide, by decide, fun h => ?_⟩
  have hlen := congrArg List.length h
  simp at hlen

/-- C4: for every command whose image replacement fails, the child writes a
diagnostic (`perror("exec failed")`) to the error stream and terminates with
the non-zero status 1, and the child branch of `execute` never returns
control to the shell loop — in no case (success or failure of `exec`) does
the child context's `execute` return to its caller. -/
theorem C4_failed_exec_child_diagnoses_and_never_returns (cmd : List Nat) :
    (childBranch cmd .execFails).1
        = [.execCall cmd cmd [], .stderr execFailMsg, .exitCall 1]
    ∧ childExitStatus .execFails ≠ 0
    ∧ ∀ cb, (childBranch cmd cb).2 = none := by
  refine ⟨rfl, by decide, fun cb => ?_⟩
  cases cb <;> rfl

/-- C5: when the command resolves (fork succeeds and the image replacement
takes effect), `spawn` returns only after the child has terminated: the loop
iteration's trace is prompt, then (the input having been read) the echo, then
the dispatch (`exec` call, `wait` call), then the child's termination — and
everything belonging to later iterations, in particular the next prompt,
comes strictly after that termination in the trace. -/
theorem C5_spawn_blocks_until_child_exits (buf : List Nat) (b : Nat) (t : List Nat)
    (ws : Nat → IterWorld) (pid s n : Nat)
    (hw : ws 0 = .forkOk pid (.execSucceeds s))
    (h0 : strlen (writeBytes buf (readBytes (b :: t)).1) ≠ 0) :
    shellRun (n + 1) ⟨buf, b :: t⟩ ws
      = .stdout promptBytes
        :: .stdout (echoBytes (iterCommand buf (b :: t)))
        :: .execCall (iterCommand buf (b :: t)) (iterCommand buf (b :: t)) []
        :: .waitCall (.pidValue pid)
        :: .childExit pid s
        :: shellRun n ⟨afterStrip buf (readBytes (b :: t)).1, (readBytes (b :: t)).2⟩
             (fun i => ws (i + 1)) := by
  simp [shellRun, shellIter, h0, hw, execute, childBranch, childExitStatus]

/-- Witness for C5 at concrete input: one line `"a\n"`, fork yields pid 3 and
the child exits with status 0. -/
theorem C5_spawn_blocks_until_child_exits_witness :
    shellRun 1 ⟨List.replicate NUM 0, [97, 10]⟩ (fun _ => .forkOk 3 (.execSucceeds 0))
      = .stdout promptBytes
        :: .stdout (echoBytes (iterCommand (List.replicate NUM 0) [97, 10]))
        :: .execCall (iterCommand (List.replicate NUM 0) [97, 10])
             (iterCommand (List.replicate NUM 0) [97, 10]) []
        :: .waitCall (.pidValue 3)
        :: .childExit 3 0
        :: shellRun 0
             ⟨afterStrip (List.replicate NUM 0) (readBytes [97, 10]).1,
              (readBytes [97, 10]).2⟩
             (fun i => (fun _ => IterWorld.forkOk 3 (.execSucceeds 0)) (i + 1)) :=
  C5_spawn_blocks_until_child_exits (List.replicate NUM 0) 97 [10]
    (fun _ => .forkOk 3 (.execSucceeds 0)) 3 0 0 rfl (by decide)

/-- C6: when `fork` fails, `execute` writes the diagnostic
`perror("fork failed")` to the error stream, performs no wait call, skips the
command, and returns 0; the loop's trace for that iteration is just prompt,
echo and the diagnostic, followed by the later iterations — and any further
nonempty observation window begins with the next prompt, so the failure is
non-fatal. -/
theorem C6_fork_failure_is_nonfatal (buf : List Nat) (b : Nat) (t : List Nat)
    (ws : Nat → IterWorld) (n : Nat)
    (hw : ws 0 = .forkFail)
    (h0 : strlen (writeBytes buf (readBytes (b :: t)).1) ≠ 0) :
    execute (iterCommand buf (b :: t)) IterWorld.forkFail
        = ⟨[.stderr forkFailMsg], some 0, none⟩
    ∧ shellRun (n + 1) ⟨buf, b :: t⟩ ws
        = .stdout promptBytes
          :: .stdout (echoBytes (iterCommand buf (b :: t)))
          :: .stderr forkFailMsg
          :: shellRun n ⟨afterStrip buf (readBytes (b :: t)).1, (readBytes (b :: t)).2⟩
               (fun i => ws (i + 1))
    ∧ ∀ (m : Nat) (st : LoopState) (ws' : Nat → IterWorld),
        ∃ rest, shellRun (m + 1) st ws' = .stdout promptBytes :: rest := by
  refine ⟨rfl, ?_, shellRun_succ_starts_prompt⟩
  simp [shellRun, shellIter, h0, hw, execute]

/-- Witness for C6 at concrete input: one line `"a\n"` and a failing fork. -/
theorem C6_fork_failure_is_nonfatal_witness :
    execute (iterCommand (List.replicate NUM 0) [97, 10]) IterWorld.forkFail
        = ⟨[.stderr forkFailMsg], some 0, none⟩
    ∧ shellRun 1 ⟨List.replicate NUM 0, [97, 10]⟩ (fun _ => .forkFail)
        = .stdout promptBytes
          :: .stdout (echoBytes (iterCommand (List.replicate NUM 0) [97, 10]))
          :: .stderr forkFailMsg
          :: shellRun 0
               ⟨afterStrip (List.replicate NUM 0) (readBytes [97, 10]).1,
                (readBytes [97, 10]).2⟩
               (fun i => (fun _ => IterWorld.forkFail) (i + 1))
    ∧ ∀ (m : Nat) (st : LoopState) (ws' : Nat → IterWorld),
        ∃ rest, shellRun (m + 1) st ws' = .stdout promptBytes :: rest :=
  C6_fork_failure_is_nonfatal (List.replicate NUM 0) 97 [10]
    (fun _ => .forkFail) 0 rfl (by decide)

/-- C7: whatever the oracle does, every image-replacement call `execute`
issues passes the whole untokenized command line as both the executable path
and its own first argument, and supplies no further arguments. -/
theorem C7_exec_receives_whole_untokenized_line (cmd : List Nat) (w : IterWorld)
    (p a : List Nat) (extra : List (List Nat))
    (hmem : Ev.execCall p a extra ∈ (execute cmd w).events) :
    p = cmd ∧ a = cmd ∧ extra = [] := by
  cases w with
  | forkFail => simp [execute] at hmem
  | forkOk pid cb =>
    cases cb <;> simp [execute, childBranch] at hmem <;>
      exact ⟨hmem.1, hmem.2.1, hmem.2.2⟩

/-- Witness for C7: the concrete command `"a"` under a failing `exec`. -/
theorem C7_exec_receives_whole_untokenized_line_witness :
    [97] = [97] ∧ [97] = [97] ∧ ([] : List (List Nat)) = [] :=
  C7_exec_receives_whole_untokenized_line [97] (.forkOk 1 .execFails)
    [97] [97] [] (by decide)

/-- C8: the command an iteration echoes and dispatches consists only of
bytes read in that iteration — it extends to the freshly read bytes, whatever
stale content a previous, longer command left in the buffer — and the loop
body echoes and dispatches exactly that command. -/
theorem C8_stale_buffer_bytes_never_leak (buf : List Nat) (b : Nat) (t : List Nat)
    (w : IterWorld)
    (h0 : strlen (writeBytes buf (readBytes (b :: t)).1) ≠ 0) :
    (∃ u, iterCommand buf (b :: t) ++ u = (readBytes (b :: t)).1)
    ∧ (shellIter ⟨buf, b :: t⟩ w).1
        = [.stdout promptBytes, .stdout (echoBytes (iterCommand buf (b :: t)))]
          ++ (execute (iterCommand buf (b :: t)) w).events := by
  constructor
  · obtain ⟨u1, hu1⟩ := cstr_set_zero
      (writeBytes buf (readBytes (b :: t)).1)
      (strlen (writeBytes buf (readBytes (b :: t)).1) - 1)
    obtain ⟨u2, hu2⟩ := cstr_extends_to (readBytes (b :: t)).1
    refine ⟨u1 ++ u2, ?_⟩
    rw [cstr_writeBytes] at hu1
    calc iterCommand buf (b :: t) ++ (u1 ++ u2)
        = (cstr (afterStrip buf (readBytes (b :: t)).1) ++ u1) ++ u2 := by
          rw [iterCommand, List.append_assoc]
      _ = cstr (readBytes (b :: t)).1 ++ u2 := by rw [afterStrip, hu1]
      _ = (readBytes (b :: t)).1 := hu2
  · simp [shellIter, h0]

/-- Witness for C8: stale buffer `[55, 56, 57]` from a previous command, new
input line `"a\n"`. -/
theorem C8_stale_buffer_bytes_never_leak_witness :
    (∃ u, iterCommand [55, 56, 57] [97, 10] ++ u = (readBytes [97, 10]).1)
    ∧ (shellIter ⟨[55, 56, 57], [97, 10]⟩ IterWorld.forkFail).1
        = [.stdout promptBytes,
           .stdout (echoBytes (iterCommand [55, 56, 57] [97, 10]))]
          ++ (execute (iterCommand [55, 56, 57] [97, 10]) IterWorld.forkFail).events :=
  C8_stale_buffer_bytes_never_leak [55, 56, 57] 97 [10] .forkFail (by decide)

/-- C10: before the first prompt the shell makes stdout unbuffered and writes
the one-time banner `"Running Shell...\n"`; and the per-iteration echo is not
the bare command line but `"\n Running command: "` followed by the line and a
newline. -/
theorem C10_banner_then_decorated_echo (buf0 : List Nat) (b : Nat) (t : List Nat)
    (ws : Nat → IterWorld) (n : Nat)
    (h0 : strlen (writeBytes buf0 (readBytes (b :: t)).1) ≠ 0) :
    shellMain buf0 (b :: t) ws n
      = .setvbufUnbuffered :: .stdout (strBytes bannerStr)
          :: shellRun n ⟨buf0, b :: t⟩ ws
    ∧ (shellIter ⟨buf0, b :: t⟩ (ws 0)).1
        = .stdout promptBytes
          :: .stdout (strBytes echoPreStr ++ iterCommand buf0 (b :: t) ++ strBytes nlStr)
          :: (execute (iterCommand buf0 (b :: t)) (ws 0)).events := by
  refine ⟨rfl, ?_⟩
  simp [shellIter, h0, echoBytes]

/-- Witness for C10 at concrete input: one line `"a\n"` and a failing fork. -/
theorem C10_banner_then_decorated_echo_witness :
    shellMain (List.replicate NUM 0) [97, 10] (fun _ => .forkFail) 1
      = .setvbufUnbuffered :: .stdout (strBytes bannerStr)
          :: shellRun 1 ⟨List.replicate NUM 0, [97, 10]⟩ (fun _ => .forkFail)
    ∧ (shellIter ⟨List.replicate NUM 0, [97, 10]⟩ ((fun _ => IterWorld.forkFail) 0)).1
        = .stdout promptBytes
          :: .stdout (strBytes echoPreStr
              ++ iterCommand (List.replicate NUM 0) [97, 10] ++ strBytes nlStr)
          :: (execute (iterCommand (List.replicate NUM 0) [97, 10])
              ((fun _ => IterWorld.forkFail) 0)).events :=
  C10_banner_then_decorated_echo (List.replicate NUM 0) 97 [10]
    (fun _ => .forkFail) 1 (by decide)

/-- C9: `execute` returns 0 in every case — after a child is reaped
(whatever exit status the child had), and after a fork failure — so the
child's outcome never influences the value the shell loop receives. -/
theorem C9_execute_always_returns_zero (cmd : List Nat) (w : IterWorld) :
    (execute cmd w).ret = some 0 := by
  cases w with
  | forkFail => rfl
  | forkOk pid cb => cases cb <;> rfl

end Shell
